import Mathlib

/-!
Verification development for the llsed proxy (llsed.go).

The repository's core is a single HTTP handler, `handleProxy`, together with
the JSON-RPC helper `callRPC`.  We embed both as pure Lean functions.  JSON
documents are modelled by the inductive `JSON`; decoded JSON objects (Go's
`map[string]interface{}`) are association lists `List (String × JSON)`.

External collaborators (the Go standard library's HTTP transport and its
`json.Unmarshal` into `map[string]interface{}`) are passed in as oracle
parameters: `rpcNet` gives the outcome of the JSON-RPC POST issued by
`callRPC`, `forwardNet` gives the outcome of the forward call to the target
server, and `decodeObj` gives the outcome of decoding a body into a JSON
object (`none` models a decode error).  `json.Marshal` on decoded documents
is modelled concretely by `JSON.serialize` (Go marshals maps with keys in
sorted order and no whitespace).

The handler additionally returns a ghost trace of the outbound network calls
it issues, so that properties such as "no forward call is issued" or "only
rule 0's endpoints are invoked" can be stated.

Deviations forced by the embedding, each noted at its use site:
the inbound body is taken as an already-read string (the `io.ReadAll`
failure branch of the handler is not modelled); `json.Marshal` of an
in-memory document is total here, so the two marshal-error branches of the
handler are unreachable in the model; Go's unchecked type assertion
`result.(map[string]interface{})` is modelled by an explicit `panicked`
outcome distinct from every `http.Error` response.
-/

/-- JSON values.  Go decodes numbers as float64; the claims under study only
involve small integers, so numbers are carried as `Int`. -/
inductive JSON where
  | null : JSON
  | bool (b : Bool) : JSON
  | num (n : Int) : JSON
  | str (s : String) : JSON
  | arr (elems : List JSON) : JSON
  | obj (fields : List (String × JSON)) : JSON

/-- Escape a character as Go's encoding/json does for the characters that can
occur in the documents under study (quote and backslash). -/
def escapeChar (c : Char) : String :=
  if c = '"' then "\\\"" else if c = '\\' then "\\\\" else String.singleton c

def escapeString (s : String) : String :=
  String.join (s.toList.map escapeChar)

def quoteString (s : String) : String :=
  "\"" ++ escapeString s ++ "\""

/-- Insert a rendered field into a list of rendered fields, keeping keys in
nondecreasing order (Go's `json.Marshal` emits map keys in sorted order). -/
def insertField (p : String × String) : List (String × String) → List (String × String)
  | [] => [p]
  | q :: qs => if p.1 ≤ q.1 then p :: q :: qs else q :: insertField p qs

def sortFields : List (String × String) → List (String × String)
  | [] => []
  | p :: ps => insertField p (sortFields ps)

def commaJoin : List String → String
  | [] => ""
  | [s] => s
  | s :: rest => s ++ "," ++ commaJoin rest

mutual

/-- `json.Marshal` on a decoded document: compact output, object keys in
sorted order. -/
def JSON.serialize : JSON → String
  | JSON.null => "null"
  | JSON.bool true => "true"
  | JSON.bool false => "false"
  | JSON.num n => toString n
  | JSON.str s => quoteString s
  | JSON.arr elems => "[" ++ commaJoin (serializeElems elems) ++ "]"
  | JSON.obj fields =>
      "\x7b" ++ commaJoin ((sortFields (renderFields fields)).map Prod.snd) ++ "\x7d"

def serializeElems : List JSON → List String
  | [] => []
  | v :: vs => JSON.serialize v :: serializeElems vs

def renderFields : List (String × JSON) → List (String × String)
  | [] => []
  | (k, v) :: fs => (k, quoteString k ++ ":" ++ JSON.serialize v) :: renderFields fs

end

/-- `TransformRule` from llsed.go.  The Go fields `From` and `To` are renamed
`fromFormat` and `toFormat` because `from` is reserved in Lean; `Params` is a
decoded JSON object. -/
structure TransformRule where
  tag : String
  fromFormat : String
  toFormat : String
  params : List (String × JSON)
  pre : String
  post : String

/-- `Config` from llsed.go. -/
structure Config where
  rules : List TransformRule

/-- `JSONRPCRequest` from llsed.go. -/
structure JSONRPCRequest where
  jsonrpc : String
  method : String
  params : JSON
  id : Int

/-- `JSONRPCResponse` from llsed.go.  The Go fields `Result` and `Error` are
`interface{}`; a nil interface (field absent or JSON null) is `JSON.null`. -/
structure JSONRPCResponse where
  jsonrpc : String
  result : JSON
  error : JSON
  id : Int

/-- Outcome of the HTTP POST plus response-decode performed inside `callRPC`:
the transport call fails, or the response body fails to decode as a
`JSONRPCResponse`, or a decoded response is obtained. -/
inductive RPCWire where
  | transportError (msg : String) : RPCWire
  | decodeError (msg : String) : RPCWire
  | response (resp : JSONRPCResponse) : RPCWire

/-- Result of `callRPC`: Go's `(interface{}, error)` pair. -/
inductive RPCResult where
  | ok (result : JSON) : RPCResult
  | err (msg : String) : RPCResult

/-- The request envelope `callRPC` builds: jsonrpc "2.0", method "transform",
the payload as params, and the fixed correlation id 1. -/
def mkRPCRequest (payload : JSON) : JSONRPCRequest :=
  { jsonrpc := "2.0", method := "transform", params := payload, id := 1 }

/-- `callRPC` from llsed.go.  `rpcNet endpoint req` is the oracle for the
POST of the marshalled envelope and the decode of the response body.
`json.Marshal` of the envelope is total in the model, so its error branch is
unreachable.  Go renders the error indicator with `%v`; the model renders it
with `JSON.serialize`, which is irrelevant to the claims (they only inspect
the stage prefix added by the caller). -/
def callRPC (rpcNet : String → JSONRPCRequest → RPCWire) (endpoint : String)
    (payload : JSON) : RPCResult :=
  match rpcNet endpoint (mkRPCRequest payload) with
  | RPCWire.transportError m => RPCResult.err m
  | RPCWire.decodeError m => RPCResult.err m
  | RPCWire.response resp =>
      match resp.error with
      | JSON.null => RPCResult.ok resp.result
      | e => RPCResult.err ("rpc error: " ++ JSON.serialize e)

/-- The outbound HTTP request built by the forward step. -/
structure HTTPRequest where
  method : String
  url : String
  headers : List (String × String)
  body : String

/-- Outcome of the forward call: transport failure (`httpClient.Do` errors),
failure to read the response body (`io.ReadAll` errors), or a full response. -/
inductive HTTPWire where
  | transportError (msg : String) : HTTPWire
  | readError (msg : String) : HTTPWire
  | response (status : Nat) (headers : List (String × String)) (body : String) : HTTPWire

/-- The inbound HTTP request as the handler sees it.  `body` is the fully
read request body (the `io.ReadAll` failure branch is not modelled).  The
handler only ever reads `r.URL.Path`, never the query string; `query` is
carried so that this can be stated. -/
structure InboundRequest where
  method : String
  path : String
  query : String
  headers : List (String × String)
  body : String

inductive Stage where
  | pre : Stage
  | post : Stage

/-- Ghost record of one outbound network call issued by the handler. -/
inductive NetEvent where
  | rpc (stage : Stage) (endpoint : String) (req : JSONRPCRequest) : NetEvent
  | forward (req : HTTPRequest) : NetEvent

/-- Client-visible outcome of the handler.  `httpError status msg` is Go's
`http.Error(w, msg, status)`; `response` is the success path (WriteHeader
then Write); `panicked` models a Go runtime panic escaping the handler (an
unchecked type assertion), which is not an HTTP response written by the
handler. -/
inductive ProxyOutcome where
  | httpError (status : Nat) (msg : String) : ProxyOutcome
  | response (status : Nat) (headers : List (String × String)) (body : String) : ProxyOutcome
  | panicked (msg : String) : ProxyOutcome
deriving DecidableEq

/-- The pre-transform step of `handleProxy` (lines 119-128 of llsed.go):
skipped when `rule.Pre` is empty; otherwise one `callRPC` to `rule.Pre`.  On
RPC failure the handler replies 500 with a stage-identifying message.  On
success the Go code runs `payload = result.(map[string]interface{})`, an
unchecked type assertion that panics when the result is not a JSON object;
the model makes that the `panicked` outcome.  Also returns the ghost events. -/
def preTransform (rpcNet : String → JSONRPCRequest → RPCWire) (rule : TransformRule)
    (payload0 : List (String × JSON)) :
    Except ProxyOutcome (List (String × JSON)) × List NetEvent :=
  if rule.pre = "" then (Except.ok payload0, [])
  else
    let ev := NetEvent.rpc Stage.pre rule.pre (mkRPCRequest (JSON.obj payload0))
    match callRPC rpcNet rule.pre (JSON.obj payload0) with
    | RPCResult.err m =>
        (Except.error (ProxyOutcome.httpError 500 ("pre-transform failed: " ++ m)), [ev])
    | RPCResult.ok (JSON.obj o) => (Except.ok o, [ev])
    | RPCResult.ok _ =>
        (Except.error (ProxyOutcome.panicked
          ("interface conversion: result is not a JSON object")), [ev])

/-- The post-transform step of `handleProxy` (lines 171-181 of llsed.go);
same shape as `preTransform` with `rule.Post` and the post-stage message. -/
def postTransform (rpcNet : String → JSONRPCRequest → RPCWire) (rule : TransformRule)
    (payload0 : List (String × JSON)) :
    Except ProxyOutcome (List (String × JSON)) × List NetEvent :=
  if rule.post = "" then (Except.ok payload0, [])
  else
    let ev := NetEvent.rpc Stage.post rule.post (mkRPCRequest (JSON.obj payload0))
    match callRPC rpcNet rule.post (JSON.obj payload0) with
    | RPCResult.err m =>
        (Except.error (ProxyOutcome.httpError 500 ("post-transform failed: " ++ m)), [ev])
    | RPCResult.ok (JSON.obj o) => (Except.ok o, [ev])
    | RPCResult.ok _ =>
        (Except.error (ProxyOutcome.panicked
          ("interface conversion: result is not a JSON object")), [ev])

/-- `handleProxy` from llsed.go, as a function of the configuration, the
target base URL, the three oracles and the inbound request, returning the
client-visible outcome and the ghost trace of outbound calls in order of
issue.  Step for step: decode the inbound body into a JSON object (400
"invalid json" on failure); reject with 500 when no rules are configured;
take rule 0; optional pre-transform; marshal the payload and forward it to
`serverURL ++ r.URL.Path` with the inbound method and all inbound headers
(502 on transport failure, 500 on body-read failure); decode the upstream
body into a JSON object (502 "invalid response from target" on failure);
optional post-transform; marshal the final document, copy every upstream
response header, set the upstream status code, and write the body. -/
def handleProxy (cfg : Config) (serverURL : String)
    (decodeObj : String → Option (List (String × JSON)))
    (rpcNet : String → JSONRPCRequest → RPCWire)
    (forwardNet : HTTPRequest → HTTPWire)
    (r : InboundRequest) : ProxyOutcome × List NetEvent :=
  match decodeObj r.body with
  | none => (ProxyOutcome.httpError 400 "invalid json", [])
  | some payload0 =>
    match cfg.rules with
    | [] => (ProxyOutcome.httpError 500 "no transformation rules configured", [])
    | rule :: _ =>
      match preTransform rpcNet rule payload0 with
      | (Except.error out, evs1) => (out, evs1)
      | (Except.ok payload, evs1) =>
        let targetBody := JSON.serialize (JSON.obj payload)
        let fwdReq : HTTPRequest :=
          { method := r.method, url := serverURL ++ r.path,
            headers := r.headers, body := targetBody }
        let evs2 := evs1 ++ [NetEvent.forward fwdReq]
        match forwardNet fwdReq with
        | HTTPWire.transportError m =>
            (ProxyOutcome.httpError 502 ("failed to forward request: " ++ m), evs2)
        | HTTPWire.readError _ =>
            (ProxyOutcome.httpError 500 "failed to read response", evs2)
        | HTTPWire.response status respHeaders respBody =>
          match decodeObj respBody with
          | none => (ProxyOutcome.httpError 502 "invalid response from target", evs2)
          | some respPayload0 =>
            match postTransform rpcNet rule respPayload0 with
            | (Except.error out, evs3) => (out, evs2 ++ evs3)
            | (Except.ok respPayload, evs3) =>
                (ProxyOutcome.response status respHeaders
                  (JSON.serialize (JSON.obj respPayload)), evs2 ++ evs3)

theorem preTransform_skip (rpcNet : String → JSONRPCRequest → RPCWire)
    (rule : TransformRule) (p : List (String × JSON)) (h : rule.pre = "") :
    preTransform rpcNet rule p = (Except.ok p, []) := by
  simp [preTransform, h]

theorem postTransform_skip (rpcNet : String → JSONRPCRequest → RPCWire)
    (rule : TransformRule) (p : List (String × JSON)) (h : rule.post = "") :
    postTransform rpcNet rule p = (Except.ok p, []) := by
  simp [postTransform, h]

theorem preTransform_snd (rpcNet : String → JSONRPCRequest → RPCWire)
    (rule : TransformRule) (p : List (String × JSON)) :
    (preTransform rpcNet rule p).2 = []
    ∨ (rule.pre ≠ "" ∧ (preTransform rpcNet rule p).2
        = [NetEvent.rpc Stage.pre rule.pre (mkRPCRequest (JSON.obj p))]) := by
  by_cases h : rule.pre = ""
  · left; simp [preTransform, h]
  · right
    refine ⟨h, ?_⟩
    simp only [preTransform, if_neg h]
    split <;> rfl

theorem postTransform_snd (rpcNet : String → JSONRPCRequest → RPCWire)
    (rule : TransformRule) (p : List (String × JSON)) :
    (postTransform rpcNet rule p).2 = []
    ∨ (rule.post ≠ "" ∧ (postTransform rpcNet rule p).2
        = [NetEvent.rpc Stage.post rule.post (mkRPCRequest (JSON.obj p))]) := by
  by_cases h : rule.post = ""
  · left; simp [postTransform, h]
  · right
    refine ⟨h, ?_⟩
    simp only [postTransform, if_neg h]
    split <;> rfl

theorem preTransform_ok (rpcNet : String → JSONRPCRequest → RPCWire)
    (rule : TransformRule) (p payload : List (String × JSON)) (evs : List NetEvent)
    (heq : preTransform rpcNet rule p = (Except.ok payload, evs)) (h : rule.pre = "") :
    payload = p := by
  rw [preTransform_skip rpcNet rule p h] at heq
  simp at heq
  exact heq.1.symm

theorem preTransform_mem (rpcNet : String → JSONRPCRequest → RPCWire)
    (rule : TransformRule) (p : List (String × JSON))
    (res : Except ProxyOutcome (List (String × JSON))) (evs : List NetEvent) (ev : NetEvent)
    (heq : preTransform rpcNet rule p = (res, evs)) (hmem : ev ∈ evs) :
    rule.pre ≠ "" ∧ ev = NetEvent.rpc Stage.pre rule.pre (mkRPCRequest (JSON.obj p)) := by
  rcases preTransform_snd rpcNet rule p with h2 | ⟨hne, h2⟩ <;> rw [heq] at h2
  · replace h2 : evs = [] := h2
    subst h2
    cases hmem
  · replace h2 : evs = [NetEvent.rpc Stage.pre rule.pre (mkRPCRequest (JSON.obj p))] := h2
    subst h2
    simp at hmem
    exact ⟨hne, hmem⟩

theorem postTransform_mem (rpcNet : String → JSONRPCRequest → RPCWire)
    (rule : TransformRule) (p : List (String × JSON))
    (res : Except ProxyOutcome (List (String × JSON))) (evs : List NetEvent) (ev : NetEvent)
    (heq : postTransform rpcNet rule p = (res, evs)) (hmem : ev ∈ evs) :
    rule.post ≠ "" ∧ ev = NetEvent.rpc Stage.post rule.post (mkRPCRequest (JSON.obj p)) := by
  rcases postTransform_snd rpcNet rule p with h2 | ⟨hne, h2⟩ <;> rw [heq] at h2
  · replace h2 : evs = [] := h2
    subst h2
    cases hmem
  · replace h2 : evs = [NetEvent.rpc Stage.post rule.post (mkRPCRequest (JSON.obj p))] := h2
    subst h2
    simp at hmem
    exact ⟨hne, hmem⟩

theorem handleProxy_trace_shape (cfg : Config) (serverURL : String)
    (decodeObj : String → Option (List (String × JSON)))
    (rpcNet : String → JSONRPCRequest → RPCWire)
    (forwardNet : HTTPRequest → HTTPWire)
    (r : InboundRequest) (rule : TransformRule) (rest : List TransformRule)
    (payload0 : List (String × JSON))
    (hrules : cfg.rules = rule :: rest)
    (hdec : decodeObj r.body = some payload0) :
    ∀ ev ∈ (handleProxy cfg serverURL decodeObj rpcNet forwardNet r).2,
      (rule.pre ≠ "" ∧ ev = NetEvent.rpc Stage.pre rule.pre (mkRPCRequest (JSON.obj payload0)))
      ∨ (∃ pl, ev = NetEvent.forward
            { method := r.method, url := serverURL ++ r.path,
              headers := r.headers, body := JSON.serialize (JSON.obj pl) }
          ∧ (rule.pre = "" → pl = payload0))
      ∨ (rule.post ≠ "" ∧ ∃ q, ev = NetEvent.rpc Stage.post rule.post q) := by
  intro ev hmem
  simp only [handleProxy, hrules, hdec] at hmem
  split at hmem
  case _ out evs1 heq =>
    replace hmem : ev ∈ evs1 := hmem
    exact Or.inl (preTransform_mem _ _ _ _ _ _ heq hmem)
  case _ payload evs1 heq =>
    split at hmem
    case _ m hfw =>
      replace hmem : ev ∈ evs1 ++ [NetEvent.forward
          { method := r.method, url := serverURL ++ r.path,
            headers := r.headers, body := JSON.serialize (JSON.obj payload) }] := hmem
      rcases List.mem_append.mp hmem with hmem | hmem
      · exact Or.inl (preTransform_mem _ _ _ _ _ _ heq hmem)
      · simp at hmem
        exact Or.inr (Or.inl ⟨payload, hmem, fun hp => preTransform_ok _ _ _ _ _ heq hp⟩)
    case _ m hfw =>
      replace hmem : ev ∈ evs1 ++ [NetEvent.forward
          { method := r.method, url := serverURL ++ r.path,
            headers := r.headers, body := JSON.serialize (JSON.obj payload) }] := hmem
      rcases List.mem_append.mp hmem with hmem | hmem
      · exact Or.inl (preTransform_mem _ _ _ _ _ _ heq hmem)
      · simp at hmem
        exact Or.inr (Or.inl ⟨payload, hmem, fun hp => preTransform_ok _ _ _ _ _ heq hp⟩)
    case _ status respHeaders respBody hfw =>
      split at hmem
      case _ hrdec =>
        replace hmem : ev ∈ evs1 ++ [NetEvent.forward
            { method := r.method, url := serverURL ++ r.path,
              headers := r.headers, body := JSON.serialize (JSON.obj payload) }] := hmem
        rcases List.mem_append.mp hmem with hmem | hmem
        · exact Or.inl (preTransform_mem _ _ _ _ _ _ heq hmem)
        · simp at hmem
          exact Or.inr (Or.inl ⟨payload, hmem, fun hp => preTransform_ok _ _ _ _ _ heq hp⟩)
      case _ respPayload0 hrdec =>
        split at hmem
        case _ out2 evs3 heq3 =>
          replace hmem : ev ∈ (evs1 ++ [NetEvent.forward
              { method := r.method, url := serverURL ++ r.path,
                headers := r.headers, body := JSON.serialize (JSON.obj payload) }]) ++ evs3 := hmem
          rcases List.mem_append.mp hmem with hmem | hmem
          · rcases List.mem_append.mp hmem with hmem | hmem
            · exact Or.inl (preTransform_mem _ _ _ _ _ _ heq hmem)
            · simp at hmem
              exact Or.inr (Or.inl ⟨payload, hmem, fun hp => preTransform_ok _ _ _ _ _ heq hp⟩)
          · have h3 := postTransform_mem _ _ _ _ _ _ heq3 hmem
            exact Or.inr (Or.inr ⟨h3.1, _, h3.2⟩)
        case _ respPayload evs3 heq3 =>
          replace hmem : ev ∈ (evs1 ++ [NetEvent.forward
              { method := r.method, url := serverURL ++ r.path,
                headers := r.headers, body := JSON.serialize (JSON.obj payload) }]) ++ evs3 := hmem
          rcases List.mem_append.mp hmem with hmem | hmem
          · rcases List.mem_append.mp hmem with hmem | hmem
            · exact Or.inl (preTransform_mem _ _ _ _ _ _ heq hmem)
            · simp at hmem
              exact Or.inr (Or.inl ⟨payload, hmem, fun hp => preTransform_ok _ _ _ _ _ heq hp⟩)
          · have h3 := postTransform_mem _ _ _ _ _ _ heq3 hmem
            exact Or.inr (Or.inr ⟨h3.1, _, h3.2⟩)

/-- Claim C3: for every ruleset with at least two rules, the rule applied to
any inbound request is the rule at index 0 regardless of the request's path,
method or body: the handler's outcome and trace against `rule :: rest` equal
those against the one-rule set `[rule]`, and every remote transform call in
the trace targets rule 0's pre or post endpoint. -/
theorem first_rule_only_applied (cfg : Config) (serverURL : String)
    (decodeObj : String → Option (List (String × JSON)))
    (rpcNet : String → JSONRPCRequest → RPCWire)
    (forwardNet : HTTPRequest → HTTPWire)
    (r : InboundRequest) (rule : TransformRule) (rest : List TransformRule)
    (hrules : cfg.rules = rule :: rest) :
    handleProxy cfg serverURL decodeObj rpcNet forwardNet r
      = handleProxy ⟨[rule]⟩ serverURL decodeObj rpcNet forwardNet r
    ∧ ∀ st ep q, NetEvent.rpc st ep q ∈ (handleProxy cfg serverURL decodeObj rpcNet forwardNet r).2
        → ep = rule.pre ∨ ep = rule.post := by
  constructor
  · simp only [handleProxy, hrules]
  · intro st ep q hmem
    cases hdec : decodeObj r.body with
    | none =>
      simp only [handleProxy, hdec] at hmem
      cases hmem
    | some payload0 =>
      rcases handleProxy_trace_shape cfg serverURL decodeObj rpcNet forwardNet r rule rest
          payload0 hrules hdec _ hmem with ⟨_, h⟩ | ⟨pl, h, _⟩ | ⟨_, q2, h⟩
      · injection h with h1 h2 h3
        exact Or.inl h2
      · simp at h
      · injection h with h1 h2 h3
        exact Or.inr h2

/-- Claim C4: when the selected rule's pre endpoint is empty, no remote
pre-transform call appears in the trace, and every forward request carries
exactly the serialization of the inbound JSON document. -/
theorem pre_skip_forwards_unchanged (cfg : Config) (serverURL : String)
    (decodeObj : String → Option (List (String × JSON)))
    (rpcNet : String → JSONRPCRequest → RPCWire)
    (forwardNet : HTTPRequest → HTTPWire)
    (r : InboundRequest) (rule : TransformRule) (rest : List TransformRule)
    (payload0 : List (String × JSON))
    (hrules : cfg.rules = rule :: rest)
    (hpre : rule.pre = "")
    (hdec : decodeObj r.body = some payload0) :
    (∀ ep q, NetEvent.rpc Stage.pre ep q ∉ (handleProxy cfg serverURL decodeObj rpcNet forwardNet r).2)
    ∧ (∀ req, NetEvent.forward req ∈ (handleProxy cfg serverURL decodeObj rpcNet forwardNet r).2
        → req.body = JSON.serialize (JSON.obj payload0)) := by
  constructor
  · intro ep q hmem
    rcases handleProxy_trace_shape cfg serverURL decodeObj rpcNet forwardNet r rule rest
        payload0 hrules hdec _ hmem with ⟨hne, h⟩ | ⟨pl, h, _⟩ | ⟨_, q2, h⟩
    · exact hne hpre
    · simp at h
    · injection h with h1 h2 h3
      cases h1
  · intro req hmem
    rcases handleProxy_trace_shape cfg serverURL decodeObj rpcNet forwardNet r rule rest
        payload0 hrules hdec _ hmem with ⟨_, h⟩ | ⟨pl, h, hpl⟩ | ⟨_, q2, h⟩
    · simp at h
    · injection h with h1
      rw [h1, hpl hpre]
    · simp at h

/-- Claim C5: when the pre-transform call fails for any reason `callRPC`
can fail — transport failure such as connection refused, undecodable
response, or an explicit error envelope — the client receives the 500
failure whose message identifies the pre-transform stage, and no forward
call to the target server appears in the trace. -/
theorem pre_failure_blocks_forward (cfg : Config) (serverURL : String)
    (decodeObj : String → Option (List (String × JSON)))
    (rpcNet : String → JSONRPCRequest → RPCWire)
    (forwardNet : HTTPRequest → HTTPWire)
    (r : InboundRequest) (rule : TransformRule) (rest : List TransformRule)
    (payload0 : List (String × JSON)) (m : String)
    (hrules : cfg.rules = rule :: rest)
    (hdec : decodeObj r.body = some payload0)
    (hpre : rule.pre ≠ "")
    (hnet : callRPC rpcNet rule.pre (JSON.obj payload0) = RPCResult.err m) :
    (handleProxy cfg serverURL decodeObj rpcNet forwardNet r).1
        = ProxyOutcome.httpError 500 ("pre-transform failed: " ++ m)
    ∧ ∀ req, NetEvent.forward req ∉ (handleProxy cfg serverURL decodeObj rpcNet forwardNet r).2 := by
  constructor
  · simp [handleProxy, hdec, hrules, preTransform, hpre, hnet]
  · intro req hmem
    rcases handleProxy_trace_shape cfg serverURL decodeObj rpcNet forwardNet r rule rest
        payload0 hrules hdec _ hmem with ⟨_, h⟩ | ⟨pl, h, _⟩ | ⟨_, q2, h⟩
    · simp at h
    · injection h with h1
      subst h1
      simp only [handleProxy, hdec, hrules, preTransform, if_neg hpre, hnet] at hmem
      simp at hmem
    · simp at h

/-- Claim C6 (amended): for every inbound request whose body decodes as a
JSON object, arriving while the ruleset is empty, the proxy returns the 500
server-side failure naming the missing rule configuration, and the trace is
empty, so no forwarding is attempted. -/
theorem empty_ruleset_rejects (cfg : Config) (serverURL : String)
    (decodeObj : String → Option (List (String × JSON)))
    (rpcNet : String → JSONRPCRequest → RPCWire)
    (forwardNet : HTTPRequest → HTTPWire)
    (r : InboundRequest) (payload0 : List (String × JSON))
    (hrules : cfg.rules = [])
    (hdec : decodeObj r.body = some payload0) :
    handleProxy cfg serverURL decodeObj rpcNet forwardNet r
      = (ProxyOutcome.httpError 500 "no transformation rules configured", []) := by
  simp [handleProxy, hdec, hrules]

/-- Claim C6, counterexample to the claim as stated: with an empty ruleset,
an inbound request whose body is not valid JSON is answered with the 400
client-side failure of the decode step, not with the server-side failure
indicating that no rule is configured. -/
theorem empty_ruleset_claim_counterexample :
    (handleProxy ⟨[]⟩ "http://target" (fun _ => none)
      (fun _ _ => RPCWire.decodeError ("unused")) (fun _ => HTTPWire.transportError ("unused"))
      ⟨"POST", "/v1", "", [], "not json"⟩).1
      = ProxyOutcome.httpError 400 "invalid json"
    ∧ (handleProxy ⟨[]⟩ "http://target" (fun _ => none)
      (fun _ _ => RPCWire.decodeError ("unused")) (fun _ => HTTPWire.transportError ("unused"))
      ⟨"POST", "/v1", "", [], "not json"⟩).1
      ≠ ProxyOutcome.httpError 500 "no transformation rules configured" := by
  constructor
  · rfl
  · decide

/-- Claim C7: when the target server's response body is not decodable as a
JSON object, the client receives the 502 gateway-level failure, and in
particular the upstream response is not forwarded verbatim. -/
theorem nonjson_upstream_bad_gateway (cfg : Config) (serverURL : String)
    (decodeObj : String → Option (List (String × JSON)))
    (rpcNet : String → JSONRPCRequest → RPCWire)
    (forwardNet : HTTPRequest → HTTPWire)
    (r : InboundRequest) (rule : TransformRule) (rest : List TransformRule)
    (payload0 payload : List (String × JSON)) (evs1 : List NetEvent)
    (status : Nat) (hs : List (String × String)) (respBody : String)
    (hrules : cfg.rules = rule :: rest)
    (hdec : decodeObj r.body = some payload0)
    (hpre : preTransform rpcNet rule payload0 = (Except.ok payload, evs1))
    (hfwd : forwardNet
        { method := r.method, url := serverURL ++ r.path,
          headers := r.headers, body := JSON.serialize (JSON.obj payload) }
      = HTTPWire.response status hs respBody)
    (hrdec : decodeObj respBody = none) :
    (handleProxy cfg serverURL decodeObj rpcNet forwardNet r).1
      = ProxyOutcome.httpError 502 "invalid response from target"
    ∧ (handleProxy cfg serverURL decodeObj rpcNet forwardNet r).1
      ≠ ProxyOutcome.response status hs respBody := by
  have h : (handleProxy cfg serverURL decodeObj rpcNet forwardNet r).1
      = ProxyOutcome.httpError 502 "invalid response from target" := by
    simp only [handleProxy, hrules, hdec, hpre, hfwd, hrdec]
  refine ⟨h, ?_⟩
  rw [h]
  exact fun hcon => ProxyOutcome.noConfusion hcon

/-- Claim C2: with no pre and no post endpoint configured on the selected
rule, a target server replying with status 200, header X-Test: a and JSON
body with field x = 1 produces the client-visible response with status 200,
the same header list, and the serialized document as body. -/
theorem end_to_end_success (cfg : Config) (serverURL : String)
    (decodeObj : String → Option (List (String × JSON)))
    (rpcNet : String → JSONRPCRequest → RPCWire)
    (forwardNet : HTTPRequest → HTTPWire)
    (r : InboundRequest) (rule : TransformRule) (rest : List TransformRule)
    (payload0 : List (String × JSON)) (respBody : String)
    (hrules : cfg.rules = rule :: rest)
    (hpre : rule.pre = "") (hpost : rule.post = "")
    (hdec : decodeObj r.body = some payload0)
    (hfwd : forwardNet
        { method := r.method, url := serverURL ++ r.path,
          headers := r.headers, body := JSON.serialize (JSON.obj payload0) }
      = HTTPWire.response 200 [("X-Test", "a")] respBody)
    (hrdec : decodeObj respBody = some [("x", JSON.num 1)]) :
    (handleProxy cfg serverURL decodeObj rpcNet forwardNet r).1
      = ProxyOutcome.response 200 [("X-Test", "a")] "\x7b\"x\":1\x7d" := by
  simp only [handleProxy, hrules, hdec, preTransform_skip rpcNet rule payload0 hpre, hfwd, hrdec,
    postTransform_skip rpcNet rule _ hpost]
  rfl

/-- Claim C8: the pipeline is a deterministic function of the configuration,
the target base URL, the network and decoder behaviors, and the inbound
request: two identical inbound requests yield identical outcomes and traces. -/
theorem pipeline_deterministic (cfg : Config) (serverURL : String)
    (decodeObj : String → Option (List (String × JSON)))
    (rpcNet : String → JSONRPCRequest → RPCWire)
    (forwardNet : HTTPRequest → HTTPWire)
    (r1 r2 : InboundRequest) (h : r1 = r2) :
    handleProxy cfg serverURL decodeObj rpcNet forwardNet r1
      = handleProxy cfg serverURL decodeObj rpcNet forwardNet r2 := by
  rw [h]

/-- Claim C9: every forward request in the trace targets exactly the target
base URL concatenated with the inbound path, and the handler's behavior is
invariant under the inbound query string, which it never reads. -/
theorem query_string_dropped (cfg : Config) (serverURL : String)
    (decodeObj : String → Option (List (String × JSON)))
    (rpcNet : String → JSONRPCRequest → RPCWire)
    (forwardNet : HTTPRequest → HTTPWire)
    (r : InboundRequest) :
    (∀ req, NetEvent.forward req ∈ (handleProxy cfg serverURL decodeObj rpcNet forwardNet r).2
        → req.url = serverURL ++ r.path)
    ∧ ∀ q, handleProxy cfg serverURL decodeObj rpcNet forwardNet
          { method := r.method, path := r.path, query := q, headers := r.headers, body := r.body }
        = handleProxy cfg serverURL decodeObj rpcNet forwardNet r := by
  constructor
  · intro req hmem
    cases hdec : decodeObj r.body with
    | none =>
      simp only [handleProxy, hdec] at hmem
      cases hmem
    | some payload0 =>
      cases hrules : cfg.rules with
      | nil =>
        simp only [handleProxy, hdec, hrules] at hmem
        cases hmem
      | cons rule rest =>
        rcases handleProxy_trace_shape cfg serverURL decodeObj rpcNet forwardNet r rule rest
            payload0 hrules hdec _ hmem with ⟨_, h⟩ | ⟨pl, h, _⟩ | ⟨_, q2, h⟩
        · simp at h
        · injection h with h1
          rw [h1]
        · simp at h
  · intro q
    rfl

/-- Claim C1 (refuting the claim as stated of the code): when a pre- or
post-transform remote call succeeds at the transport and envelope level but
its result field is a scalar or array rather than a JSON object, the handler
reaches the unchecked Go type assertion `result.(map[string]interface\x7b\x7d)`
and panics; the outcome is the `panicked` interface-conversion failure, not a
typed 500 pre- or post-transform error response. -/
theorem pre_post_nonobject_result_panics :
    (handleProxy
      ⟨[{ tag := "t", fromFormat := "a", toFormat := "b", params := [],
          pre := "http://pre-transform", post := "" }]⟩ "http://target"
      (fun _ => some [])
      (fun _ _ => RPCWire.response ⟨"2.0", JSON.num 5, JSON.null, 1⟩)
      (fun _ => HTTPWire.transportError ("unused"))
      ⟨"POST", "/v1", "", [], "\x7b\x7d"⟩).1
      = ProxyOutcome.panicked ("interface conversion: result is not a JSON object")
    ∧ (handleProxy
      ⟨[{ tag := "t", fromFormat := "a", toFormat := "b", params := [],
          pre := "", post := "http://post-transform" }]⟩ "http://target"
      (fun _ => some [])
      (fun _ _ => RPCWire.response ⟨"2.0", JSON.arr [], JSON.null, 1⟩)
      (fun _ => HTTPWire.response 200 [] "\x7b\x7d")
      ⟨"POST", "/v1", "", [], "\x7b\x7d"⟩).1
      = ProxyOutcome.panicked ("interface conversion: result is not a JSON object") :=
  ⟨rfl, rfl⟩

/-- Claim C10: the respond step copies every upstream response header,
including Content-Length, and then writes the re-serialized document; for an
upstream body in non-canonical form (extra whitespace, 10 bytes) the relayed
Content-Length value 10 differs from the 7-byte body actually written. -/
theorem content_length_copied_mismatch :
    (handleProxy
      ⟨[{ tag := "t", fromFormat := "a", toFormat := "b", params := [],
          pre := "", post := "" }]⟩ "http://target"
      (fun s => if s = "\x7b \"x\": 1 \x7d" then some [("x", JSON.num 1)]
                else if s = "\x7b\x7d" then some [] else none)
      (fun _ _ => RPCWire.transportError ("unused"))
      (fun _ => HTTPWire.response 200
          [("Content-Length", "10"), ("Content-Type", "application/json")] "\x7b \"x\": 1 \x7d")
      ⟨"GET", "/v1", "", [], "\x7b\x7d"⟩).1
      = ProxyOutcome.response 200
          [("Content-Length", "10"), ("Content-Type", "application/json")] "\x7b\"x\":1\x7d"
    ∧ ("\x7b \"x\": 1 \x7d").length = 10
    ∧ ("\x7b\"x\":1\x7d").length = 7
    ∧ ("\x7b\"x\":1\x7d").length ≠ 10 := by
  refine ⟨rfl, rfl, rfl, ?_⟩
  decide

def demoRule : TransformRule :=
  { tag := "claude_to_openai", fromFormat := "anthropic", toFormat := "openai",
    params := [], pre := "", post := "" }

def demoRuleB : TransformRule :=
  { tag := "second", fromFormat := "openai", toFormat := "anthropic",
    params := [], pre := "http://other-pre-endpoint", post := "http://other-post-endpoint" }

def demoRulePre : TransformRule :=
  { tag := "with_pre", fromFormat := "anthropic", toFormat := "openai",
    params := [], pre := "http://pre-transform-endpoint", post := "" }

def demoDecode : String → Option (List (String × JSON)) :=
  fun s => if s = "\x7b\"x\":1\x7d" then some [("x", JSON.num 1)] else none

def demoRPCNet : String → JSONRPCRequest → RPCWire :=
  fun _ q => RPCWire.response ⟨"2.0", q.params, JSON.null, 1⟩

def demoForward : HTTPRequest → HTTPWire :=
  fun _ => HTTPWire.response 200 [("X-Test", "a")] "\x7b\"x\":1\x7d"

def demoRequest : InboundRequest :=
  ⟨"POST", "/v1/chat", "", [("Authorization", "k")], "\x7b\"x\":1\x7d"⟩

theorem end_to_end_success_witness :
    (handleProxy ⟨[demoRule]⟩ "http://target" demoDecode demoRPCNet demoForward demoRequest).1
      = ProxyOutcome.response 200 [("X-Test", "a")] "\x7b\"x\":1\x7d" :=
  end_to_end_success _ _ _ _ _ _ _ _ _ _ rfl rfl rfl rfl rfl rfl

theorem first_rule_only_applied_witness :
    (handleProxy ⟨[demoRule, demoRuleB]⟩ "http://target" demoDecode demoRPCNet demoForward
        demoRequest
      = handleProxy ⟨[demoRule]⟩ "http://target" demoDecode demoRPCNet demoForward demoRequest)
    ∧ ∀ st ep q, NetEvent.rpc st ep q
          ∈ (handleProxy ⟨[demoRule, demoRuleB]⟩ "http://target" demoDecode demoRPCNet demoForward
              demoRequest).2
        → ep = demoRule.pre ∨ ep = demoRule.post :=
  first_rule_only_applied _ _ _ _ _ _ _ _ rfl

theorem pre_skip_forwards_unchanged_witness :
    (∀ ep q, NetEvent.rpc Stage.pre ep q
        ∉ (handleProxy ⟨[demoRule]⟩ "http://target" demoDecode demoRPCNet demoForward
            demoRequest).2)
    ∧ (∀ req, NetEvent.forward req
          ∈ (handleProxy ⟨[demoRule]⟩ "http://target" demoDecode demoRPCNet demoForward
              demoRequest).2
        → req.body = JSON.serialize (JSON.obj [("x", JSON.num 1)])) :=
  pre_skip_forwards_unchanged _ _ _ _ _ _ _ _ _ rfl rfl rfl

theorem pre_failure_blocks_forward_witness :
    (handleProxy ⟨[demoRulePre]⟩ "http://target" demoDecode
        (fun _ _ => RPCWire.transportError ("connection refused")) demoForward demoRequest).1
      = ProxyOutcome.httpError 500 ("pre-transform failed: " ++ "connection refused")
    ∧ ∀ req, NetEvent.forward req
        ∉ (handleProxy ⟨[demoRulePre]⟩ "http://target" demoDecode
            (fun _ _ => RPCWire.transportError ("connection refused")) demoForward demoRequest).2 :=
  pre_failure_blocks_forward _ _ _ _ _ _ _ _ _ _ rfl rfl (by decide) rfl

theorem empty_ruleset_rejects_witness :
    handleProxy ⟨[]⟩ "http://target" demoDecode demoRPCNet demoForward demoRequest
      = (ProxyOutcome.httpError 500 "no transformation rules configured", []) :=
  empty_ruleset_rejects _ _ _ _ _ _ _ rfl rfl

theorem nonjson_upstream_bad_gateway_witness :
    (handleProxy ⟨[demoRule]⟩ "http://target" demoDecode demoRPCNet
        (fun _ => HTTPWire.response 200 [] "oops") demoRequest).1
      = ProxyOutcome.httpError 502 "invalid response from target"
    ∧ (handleProxy ⟨[demoRule]⟩ "http://target" demoDecode demoRPCNet
        (fun _ => HTTPWire.response 200 [] "oops") demoRequest).1
      ≠ ProxyOutcome.response 200 [] "oops" :=
  nonjson_upstream_bad_gateway _ _ _ _ _ _ _ _ _ _ _ _ _ _ rfl rfl rfl rfl rfl

theorem pipeline_deterministic_witness :
    handleProxy ⟨[demoRule]⟩ "http://target" demoDecode demoRPCNet demoForward demoRequest
      = handleProxy ⟨[demoRule]⟩ "http://target" demoDecode demoRPCNet demoForward demoRequest :=
  pipeline_deterministic _ _ _ _ _ _ _ rfl

theorem query_string_dropped_witness :
    (∀ req, NetEvent.forward req
          ∈ (handleProxy ⟨[demoRule]⟩ "http://target" demoDecode demoRPCNet demoForward
              demoRequest).2
        → req.url = "http://target" ++ demoRequest.path)
    ∧ ∀ q, handleProxy ⟨[demoRule]⟩ "http://target" demoDecode demoRPCNet demoForward
          { method := demoRequest.method, path := demoRequest.path, query := q,
            headers := demoRequest.headers, body := demoRequest.body }
        = handleProxy ⟨[demoRule]⟩ "http://target" demoDecode demoRPCNet demoForward demoRequest :=
  query_string_dropped _ _ _ _ _ _
